import Mathlib

/-!
Verification of the build descriptor in `src/python/setup.py` of the qNoise
repository.  The script declares a single `Extension` entry whose fields are
either literal constants or depend on `sys.platform` (the compiler flags) and
on `pybind11.get_include()` (one include directory).  We embed the descriptor
as Lean functions of those two external strings and prove the configuration
properties stated in the specification.
-/

/-- A setuptools `Extension` descriptor, with the fields `setup.py` sets. -/
structure Extension where
  name : String
  sources : List String
  include_dirs : List String
  language : String
  extra_compile_args : List String
deriving Repr, DecidableEq

/-- The Unix-like compiler flag list from `setup.py` line 11. -/
def unixFlags : List String := ["-std=c++11", "-O3", "-Wall", "-fPIC"]

/-- The Windows compiler flag list from `setup.py` line 11. -/
def windowsFlags : List String := ["/std:c++14", "/O2"]

/-- The single `Extension(...)` entry of `setup.py` (lines 6-12), as a function
of `sys.platform` and of the directory returned by `pybind11.get_include()`. -/
def qnoiseExtension (platform : String) (pybindInclude : String) : Extension :=
  { name := "qnoise._qnoise"
  , sources := ["qnoise/qNoisePy.cpp", "../cpp/qNoise.cpp"]
  , include_dirs := [pybindInclude, "../cpp"]
  , language := "c++"
  , extra_compile_args :=
      if platform ≠ "win32" then unixFlags else windowsFlags }

/-- The `ext_modules` list of `setup.py` (lines 5-13). -/
def ext_modules (platform : String) (pybindInclude : String) : List Extension :=
  [qnoiseExtension platform pybindInclude]

/-- The keyword arguments of the `setup(...)` call on line 15. -/
structure SetupArgs where
  ext_modules : List Extension
  zip_safe : Bool
deriving Repr, DecidableEq

/-- The `setup(ext_modules=ext_modules, zip_safe=False)` invocation (line 15). -/
def setupCall (platform : String) (pybindInclude : String) : SetupArgs :=
  { ext_modules := ext_modules platform pybindInclude
  , zip_safe := false }

/-- C1: for every non-Windows platform identifier, the selected compiler flag
set is exactly the four-element Unix list
`["-std=c++11", "-O3", "-Wall", "-fPIC"]`, in that order. -/
theorem extra_compile_args_unix (platform pybindInclude : String)
    (h : platform ≠ "win32") :
    (qnoiseExtension platform pybindInclude).extra_compile_args =
      ["-std=c++11", "-O3", "-Wall", "-fPIC"] := by
  simp [qnoiseExtension, unixFlags, h]

/-- Witness for C1 at the concrete platform identifier "linux". -/
theorem extra_compile_args_unix_witness :
    ("linux" : String) ≠ "win32" ∧
      (qnoiseExtension "linux" "/usr/include/pybind11").extra_compile_args =
        ["-std=c++11", "-O3", "-Wall", "-fPIC"] :=
  ⟨by decide, extra_compile_args_unix "linux" "/usr/include/pybind11" (by decide)⟩

/-- C2: for the Windows platform identifier, the selected compiler flag set is
exactly the two-element Windows list `["/std:c++14", "/O2"]`, in that order. -/
theorem extra_compile_args_windows (platform pybindInclude : String)
    (h : platform = "win32") :
    (qnoiseExtension platform pybindInclude).extra_compile_args =
      ["/std:c++14", "/O2"] := by
  simp [qnoiseExtension, windowsFlags, h]

/-- Witness for C2 at the concrete platform identifier "win32". -/
theorem extra_compile_args_windows_witness :
    ("win32" : String) = "win32" ∧
      (qnoiseExtension "win32" "C:/pybind11").extra_compile_args =
        ["/std:c++14", "/O2"] :=
  ⟨rfl, extra_compile_args_windows "win32" "C:/pybind11" rfl⟩

/-- C3: the flag-set selection is a pure function of the platform identifier
alone: two evaluations with the same platform identifier, whatever every other
input (here the pybind11 include directory), select the identical flag set. -/
theorem extra_compile_args_pure (platform i₁ i₂ : String) :
    (qnoiseExtension platform i₁).extra_compile_args =
      (qnoiseExtension platform i₂).extra_compile_args := by
  simp [qnoiseExtension]

/-- C4: for every platform identifier the flag-set selection yields one of
exactly two predefined flag sets, the Unix list or the Windows list; there is
no third outcome and no error branch. -/
theorem extra_compile_args_total (platform pybindInclude : String) :
    (qnoiseExtension platform pybindInclude).extra_compile_args = unixFlags ∨
      (qnoiseExtension platform pybindInclude).extra_compile_args = windowsFlags := by
  by_cases h : platform = "win32"
  · right; simp [qnoiseExtension, h]
  · left; simp [qnoiseExtension, h]

/-- C5: on every platform the declared source-file list contains exactly two
paths, the first local to the binding layer (ending in "qNoisePy.cpp") and the
second in the sibling native-source directory (ending in "qNoise.cpp"). -/
theorem sources_two_paths (platform pybindInclude : String) :
    (qnoiseExtension platform pybindInclude).sources.length = 2 ∧
      ((qnoiseExtension platform pybindInclude).sources.get? 0 =
        some "qnoise/qNoisePy.cpp" ∧
        "qNoisePy.cpp".data <:+ "qnoise/qNoisePy.cpp".data) ∧
      ((qnoiseExtension platform pybindInclude).sources.get? 1 =
        some "../cpp/qNoise.cpp" ∧
        "qNoise.cpp".data <:+ "../cpp/qNoise.cpp".data) := by
  refine ⟨rfl, ⟨rfl, ?_⟩, ⟨rfl, ?_⟩⟩ <;> decide

/-- C6: on every platform the include search path has exactly two entries: the
pybind11 header location followed by the native-core header directory
"../cpp". -/
theorem include_dirs_two_entries (platform pybindInclude : String) :
    (qnoiseExtension platform pybindInclude).include_dirs =
      [pybindInclude, "../cpp"] ∧
      (qnoiseExtension platform pybindInclude).include_dirs.length = 2 := by
  exact ⟨rfl, rfl⟩

/-- C7: on every platform the module identifier is the fixed dotted name
"qnoise._qnoise", which contains a dot separating package from module. -/
theorem name_stable_namespaced (platform pybindInclude : String) :
    (qnoiseExtension platform pybindInclude).name = "qnoise._qnoise" ∧
      '.' ∈ (qnoiseExtension platform pybindInclude).name.data := by
  refine ⟨rfl, ?_⟩
  show '.' ∈ "qnoise._qnoise".data
  decide

/-- C8: the Windows decision is the exact string comparison with "win32": the
Windows flag list is selected exactly when the platform identifier is
character-for-character "win32", and every other identifier (including
"cygwin" and "msys") receives the Unix flag list. -/
theorem flags_decided_by_win32_equality (platform pybindInclude : String) :
    ((qnoiseExtension platform pybindInclude).extra_compile_args = windowsFlags ↔
        platform = "win32") ∧
      ((qnoiseExtension platform pybindInclude).extra_compile_args = unixFlags ↔
        platform ≠ "win32") ∧
      (qnoiseExtension "cygwin" pybindInclude).extra_compile_args = unixFlags ∧
      (qnoiseExtension "msys" pybindInclude).extra_compile_args = unixFlags := by
  refine ⟨?_, ?_, by simp [qnoiseExtension], by simp [qnoiseExtension]⟩ <;>
    by_cases h : platform = "win32" <;>
      simp [qnoiseExtension, h, unixFlags, windowsFlags]

/-- C9: on every platform, `ext_modules` contains exactly one Extension entry,
and every entry in it has language tag "c++". -/
theorem ext_modules_single_cpp (platform pybindInclude : String) :
    (ext_modules platform pybindInclude).length = 1 ∧
      ∀ e ∈ ext_modules platform pybindInclude, e.language = "c++" := by
  refine ⟨rfl, ?_⟩
  intro e he
  simp [ext_modules] at he
  subst he
  rfl

/-- C10: on every platform the `setup` invocation declares `zip_safe=False`. -/
theorem setup_zip_safe_false (platform pybindInclude : String) :
    (setupCall platform pybindInclude).zip_safe = false := by
  rfl
